import Mathlib

/-!
# Verification of the riddle-app backend (src/backend/app.py)

A shallow embedding of the data model and core operations of the riddle
backend: riddle delivery with anti-repeat tracking (`get_random_riddle`),
answer checking with the two-attempt budget and asymmetric scoring
(`check_answer`), AI riddle generation with deduplication
(`generate_fresh_ai_riddle`), the daily challenge (`answer_daily_challenge`)
and the history reset (`reset_history`).

Modelling conventions:
* The Mongo document store is modelled as explicit state: the riddle corpus
  is a `List Riddle`, the requesting user's document is a `User` record, the
  daily challenges are a `List DailyChallenge`.  Each route handler becomes a
  pure function from the pre-state to an `Except`/`Option` of response and
  post-state.
* Python strings are modelled as Lean `String`s; `str.strip`, `str.lower`,
  `str.split()` and the `in` substring test are re-implemented over the
  character list (`pyStrip`, `pyLower`, `pyWordCount`, `strContains`) so
  that everything evaluates in the kernel.
* Randomness (`random.choice`) is an index oracle `k : Nat`; the chosen
  element is `l[k % len l]`, which ranges over exactly the elements
  `random.choice` can return.  The Groq completion and the translator are
  oracles supplied as arguments (`attempts`, `tr`); a fresh `ObjectId` is an
  oracle string.
* Dates (`datetime.utcnow().date()`) are abstract day numbers (`Nat`) for the
  streak logic and ISO strings for the daily challenge, mirroring how the
  code compares them.
-/

/-! ## Python string primitives -/

/-- `str.lower()`: lowercase every character. -/
def pyLower (s : String) : String :=
  String.mk (s.toList.map Char.toLower)

/-- `str.strip()`: drop whitespace from both ends. -/
def pyStrip (s : String) : String :=
  String.mk (((s.toList.dropWhile Char.isWhitespace).reverse.dropWhile
    Char.isWhitespace).reverse)

/-- Auxiliary word counter over characters: counts maximal runs of
non-whitespace characters, i.e. `len(s.split())` in Python. -/
def wordCountAux : List Char → Bool → Nat
  | [], _ => 0
  | c :: t, inWord =>
    if c.isWhitespace then wordCountAux t false
    else (if inWord then 0 else 1) + wordCountAux t true

/-- `len(s.split())`: the number of whitespace-separated words. -/
def pyWordCount (s : String) : Nat :=
  wordCountAux s.toList false

/-- `needle` is a leading segment of `hay` (over character lists). -/
def listLeads : List Char → List Char → Bool
  | [], _ => true
  | _ :: _, [] => false
  | a :: as, b :: bs => a == b && listLeads as bs

/-- `needle` occurs inside `hay` (over character lists). -/
def listContains (needle : List Char) : List Char → Bool
  | [] => listLeads needle []
  | hay@(_ :: t) => listLeads needle hay || listContains needle t

/-- Python's substring test `needle in hay`. -/
def strContains (hay needle : String) : Bool :=
  listContains needle.toList hay.toList

/-- Mongo `$addToSet`: append the element unless it is already present. -/
def addToSet (l : List String) (x : String) : List String :=
  if l.contains x then l else l ++ [x]

/-! ## MD5 (hashlib.md5(...).hexdigest())

A direct implementation of RFC 1321 over byte lists (bytes as `Nat < 256`,
32-bit words as `Nat` reduced mod `2^32`), used by `create_riddle_hash`. -/

/-- The 64 MD5 round constants `⌊|sin(i+1)|·2³²⌋`. -/
def md5K : List Nat :=
  [3614090360, 3905402710, 606105819, 3250441966, 4118548399, 1200080426,
   2821735955, 4249261313, 1770035416, 2336552879, 4294925233, 2304563134,
   1804603682, 4254626195, 2792965006, 1236535329, 4129170786, 3225465664,
   643717713, 3921069994, 3593408605, 38016083, 3634488961, 3889429448,
   568446438, 3275163606, 4107603335, 1163531501, 2850285829, 4243563512,
   1735328473, 2368359562, 4294588738, 2272392833, 1839030562, 4259657740,
   2763975236, 1272893353, 4139469664, 3200236656, 681279174, 3936430074,
   3572445317, 76029189, 3654602809, 3873151461, 530742520, 3299628645,
   4096336452, 1126891415, 2878612391, 4237533241, 1700485571, 2399980690,
   4293915773, 2240044497, 1873313359, 4264355552, 2734768916, 1309151649,
   4149444226, 3174756917, 718787259, 3951481745]

/-- The per-round left-rotation amounts. -/
def md5S : List Nat :=
  [7, 12, 17, 22, 7, 12, 17, 22, 7, 12, 17, 22, 7, 12, 17, 22,
   5, 9, 14, 20, 5, 9, 14, 20, 5, 9, 14, 20, 5, 9, 14, 20,
   4, 11, 16, 23, 4, 11, 16, 23, 4, 11, 16, 23, 4, 11, 16, 23,
   6, 10, 15, 21, 6, 10, 15, 21, 6, 10, 15, 21, 6, 10, 15, 21]

/-- Left-rotate a 32-bit word. -/
def rotl32 (x n : Nat) : Nat :=
  ((x <<< n) ||| (x >>> (32 - n))) % 4294967296

/-- One of the 64 MD5 rounds. -/
def md5Step (M : List Nat) (i : Nat) :
    Nat × Nat × Nat × Nat → Nat × Nat × Nat × Nat
  | (a, b, c, d) =>
    let f :=
      if i < 16 then (b &&& c) ||| ((b ^^^ 4294967295) &&& d)
      else if i < 32 then (d &&& b) ||| ((d ^^^ 4294967295) &&& c)
      else if i < 48 then b ^^^ c ^^^ d
      else c ^^^ (b ||| (d ^^^ 4294967295))
    let g :=
      if i < 16 then i
      else if i < 32 then (5 * i + 1) % 16
      else if i < 48 then (3 * i + 5) % 16
      else (7 * i) % 16
    let tmp := (a + f + md5K.getD i 0 + M.getD g 0) % 4294967296
    (d, (b + rotl32 tmp (md5S.getD i 0)) % 4294967296, b, c)

/-- Process one 16-word chunk. -/
def md5Chunk (M : List Nat) (st : Nat × Nat × Nat × Nat) :
    Nat × Nat × Nat × Nat :=
  let r := (List.range 64).foldl (fun s i => md5Step M i s) st
  ((st.1 + r.1) % 4294967296, (st.2.1 + r.2.1) % 4294967296,
   (st.2.2.1 + r.2.2.1) % 4294967296, (st.2.2.2 + r.2.2.2) % 4294967296)

/-- Group a byte list into little-endian 32-bit words. -/
def bytesToWords : List Nat → List Nat
  | a :: b :: c :: d :: rest =>
    (a + 256 * b + 65536 * c + 16777216 * d) :: bytesToWords rest
  | _ => []

/-- Consume the (already padded) word stream 16 words at a time. -/
def md5Blocks (words : List Nat) (st : Nat × Nat × Nat × Nat) :
    Nat × Nat × Nat × Nat :=
  if _h : words.length < 16 then st
  else md5Blocks (words.drop 16) (md5Chunk (words.take 16) st)
termination_by words.length
decreasing_by
  simp only [List.length_drop]
  omega

/-- RFC 1321 padding: `0x80`, zeros to 56 mod 64, then the 64-bit
little-endian bit length. -/
def md5Pad (msg : List Nat) : List Nat :=
  let len := msg.length
  let zeros := (119 - len % 64) % 64
  let bitLen := (len * 8) % 18446744073709551616
  msg ++ [128] ++ List.replicate zeros 0 ++
    (List.range 8).map (fun i => bitLen / 256 ^ i % 256)

/-- Serialize one 32-bit word to four little-endian bytes. -/
def wordLEBytes (w : Nat) : List Nat :=
  [w % 256, w / 256 % 256, w / 65536 % 256, w / 16777216 % 256]

/-- The 16 digest bytes of a byte-list message. -/
def md5Bytes (msg : List Nat) : List Nat :=
  let st := md5Blocks (bytesToWords (md5Pad msg))
    (1732584193, 4023233417, 2562383102, 271733878)
  wordLEBytes st.1 ++ wordLEBytes st.2.1 ++ wordLEBytes st.2.2.1 ++
    wordLEBytes st.2.2.2

/-- A nibble as a lowercase hex character. -/
def hexDigit (n : Nat) : Char :=
  if n < 10 then Char.ofNat (48 + n) else Char.ofNat (87 + n)

/-- `hashlib.md5(s.encode()).hexdigest()`. -/
def md5hex (s : String) : String :=
  String.mk ((((md5Bytes (s.toUTF8.toList.map (fun b => b.toNat))).map
    (fun b => [hexDigit (b / 16), hexDigit (b % 16)])).flatten))

/-! ## Constants from app.py -/

/-- The fixed category list `RIDDLE_CATEGORIES`. -/
def RIDDLE_CATEGORIES : List String :=
  ["logic", "wordplay", "math", "nature", "objects", "general"]

/-- The blocklist `COMMON_ANSWERS` of overused riddle answers. -/
def COMMON_ANSWERS : List String :=
  ["clock", "shadow", "mirror", "time", "echo", "silence", "breath",
   "darkness", "light", "fire", "candle", "river", "cloud", "egg", "towel",
   "keyboard", "stamp", "bottle", "pencil", "coin"]

/-! ## Data model -/

/-- A document of the `riddles` collection.  The Hindi riddles inserted by
`get_random_riddle` carry no `shares`/`likes` keys in the source; since those
keys are only ever read through `.get(·, 0)` and `$inc` (which treats a
missing key as `0`), they are modelled as fields that are `0` there. -/
structure Riddle where
  id : String
  question : String
  answer : String
  riddle_hash : String
  category : String
  difficulty : String
  language : String
  hints : List String
  shares : Nat
  likes : Nat
deriving DecidableEq, Inhabited

/-- The per-user document of the `users` collection (the fields the modelled
operations touch).  `current_riddle_attempts` is the Mongo sub-document,
an association list keyed by riddle id; `last_active` is an abstract day
number (the code stores a datetime and only ever compares calendar days). -/
structure User where
  username : String
  solved : Nat
  correct : Nat
  streak : Nat
  points : Int
  seen_riddles : List String
  current_riddle_attempts : List (String × Nat)
  daily_challenges_completed : List String
  last_active : Option Nat
deriving DecidableEq, Inhabited

/-- `user.get("current_riddle_attempts", {}).get(rid, 0)`. -/
def getAttempts (u : User) (rid : String) : Nat :=
  match List.lookup rid u.current_riddle_attempts with
  | some n => n
  | none => 0

/-- Mongo `$set: {current_riddle_attempts.rid: n}`: replace the binding if
present, otherwise append it. -/
def setAttempts : List (String × Nat) → String → Nat → List (String × Nat)
  | [], rid, n => [(rid, n)]
  | (k, v) :: t, rid, n =>
    if k == rid then (k, n) :: t else (k, v) :: setAttempts t rid n

/-- `db.riddles.find_one({"_id": rid})`. -/
def find_one (riddles : List Riddle) (rid : String) : Option Riddle :=
  riddles.find? (fun r => r.id == rid)

/-! ## Riddle generation (`create_riddle_hash`, `check_riddle_exists`,
`generate_fresh_ai_riddle`) -/

/-- `create_riddle_hash`: MD5 of the lowercased-and-stripped question
concatenated with the lowercased-and-stripped answer. -/
def create_riddle_hash (question answer : String) : String :=
  md5hex (pyStrip (pyLower question) ++ pyStrip (pyLower answer))

/-- `check_riddle_exists`: a riddle with the same (normalized) answer exists
in English, or (when a question is given) one with the same content hash. -/
def check_riddle_exists (riddles : List Riddle) (answer : String)
    (question : String) : Bool :=
  if riddles.any (fun r =>
      r.answer == pyStrip (pyLower answer) && r.language == "en") then
    true
  else if question != "" then
    riddles.any (fun r => r.riddle_hash == create_riddle_hash question answer)
  else
    false

/-- The question/answer/difficulty object parsed out of one Groq completion
(`difficulty` is optional: the code reads it with `.get(·, "medium")`). -/
structure GenCandidate where
  question : String
  answer : String
  difficulty : Option String
deriving DecidableEq, Inhabited

/-- The acceptance step of one generation attempt (app.py lines 217-258):
normalize, reject multi-word / blocklisted / duplicate answers, and otherwise
build the riddle document that is inserted into the corpus. -/
def processCandidate (riddles : List Riddle) (category : String)
    (newId : String) (c : GenCandidate) : Option Riddle :=
  let answer := pyStrip (pyLower c.answer)
  let question := pyStrip c.question
  if pyWordCount answer > 1 then none
  else if COMMON_ANSWERS.contains answer then none
  else if check_riddle_exists riddles answer question then none
  else some
    { id := newId
      question := question
      answer := answer
      riddle_hash := create_riddle_hash question answer
      category := category
      difficulty := c.difficulty.getD "medium"
      language := "en"
      hints := []
      shares := 0
      likes := 0 }

/-- `generate_fresh_ai_riddle`: the bounded retry loop.  Each element of
`attempts` is one provider interaction — `none` models a provider error or a
parse failure (both `continue` the loop), `some c` a parsed candidate — paired
with the fresh `ObjectId` that attempt would use.  The list has at most
`max_retries = 5` elements; the loop returns the first accepted riddle and
`none` once the attempts are exhausted.  Failed attempts do not change the
corpus; the accepted riddle is the document `insert_one` persists. -/
def generate_fresh_ai_riddle (riddles : List Riddle) (category : String) :
    List (Option GenCandidate × String) → Option Riddle
  | [] => none
  | (none, _) :: rest => generate_fresh_ai_riddle riddles category rest
  | (some c, newId) :: rest =>
    match processCandidate riddles category newId c with
    | some r => some r
    | none => generate_fresh_ai_riddle riddles category rest

/-! ## Riddle delivery (`get_random_riddle`) -/

/-- The Mongo query of `get_random_riddle`: language match, `_id` not among
the seen ids, and the category filter when a valid category was requested
(`if category and category in RIDDLE_CATEGORIES`). -/
def matchesQuery (language : String) (category : Option String)
    (seen : List String) (r : Riddle) : Bool :=
  r.language == language && !(seen.contains r.id) &&
    (match category with
     | some c =>
       if c != "" && RIDDLE_CATEGORIES.contains c then r.category == c
       else true
     | none => true)

/-- `random.choice(l)` with the index oracle `k`. -/
def choose (l : List Riddle) (k : Nat) : Riddle :=
  l.getD (k % l.length) default

/-- The response body of `get_random_riddle` (the answer is omitted). -/
structure DeliverOk where
  id : String
  question : String
  category : String
  difficulty : String
  hints : List String
  shares : Nat
  attempts_left : Nat
deriving DecidableEq, Inhabited

/-- Build the riddle view returned to the client. -/
def deliverView (r : Riddle) : DeliverOk :=
  { id := r.id, question := r.question, category := r.category,
    difficulty := r.difficulty, hints := r.hints, shares := r.shares,
    attempts_left := 2 }

/-- The final update of `get_random_riddle`: `$addToSet` the riddle id into
`seen_riddles` and `$set` its attempt counter to `0`. -/
def markDelivered (u : User) (rid : String) : User :=
  { u with
    seen_riddles := addToSet u.seen_riddles rid
    current_riddle_attempts := setAttempts u.current_riddle_attempts rid 0 }

/-- `category or "general"`. -/
def pyOrDefault (c : Option String) (d : String) : String :=
  match c with
  | some s => if s == "" then d else s
  | none => d

/-- `get_random_riddle` (the `/riddle` route) over an explicit store.
Arguments beyond the store and the user: the requested `language` and
`category`, the generation outcome `gen` (the value of the
`generate_fresh_ai_riddle(category or "general")` call, already including the
inserted document on success), the translator oracle `tr`
(`translate_to_hindi`), the fresh `ObjectId` oracle `freshId` for the Hindi
copy, and the three `random.choice` index oracles.  `none` is the
`HTTPException(503)` ("No riddles available"). -/
def deliver (riddles : List Riddle) (u : User) (language : String)
    (category : Option String) (gen : Option Riddle) (tr : String → String)
    (freshId : String) (k1 k2 k3 : Nat) :
    Option (DeliverOk × List Riddle × User) :=
  let seen := u.seen_riddles
  let unseen := riddles.filter (matchesQuery language category seen)
  if unseen.length ≥ 3 then
    let r := choose unseen k1
    some (deliverView r, riddles, markDelivered u r.id)
  else
    match gen with
    | none =>
      if !unseen.isEmpty then
        let r := choose unseen k2
        some (deliverView r, riddles, markDelivered u r.id)
      else
        let all_riddles := riddles.filter (fun r => r.language == language)
        if !all_riddles.isEmpty then
          let r := choose all_riddles k3
          some (deliverView r, riddles,
            markDelivered { u with seen_riddles := [] } r.id)
        else
          none
    | some en =>
      let riddles1 := riddles ++ [en]
      if language == "hi" then
        let hr : Riddle :=
          { id := freshId
            question := tr en.question
            answer := tr en.answer
            riddle_hash := create_riddle_hash (tr en.question) (tr en.answer)
            category := en.category
            difficulty := en.difficulty
            language := "hi"
            hints := []
            shares := 0
            likes := 0 }
        some (deliverView hr, riddles1 ++ [hr], markDelivered u hr.id)
      else
        some (deliverView en, riddles1, markDelivered u en.id)

/-- The `/riddle` route with the generation call spelled out: `deliver`
applied to the outcome of `generate_fresh_ai_riddle` on the current corpus
with category `category or "general"`. -/
def get_random_riddle (riddles : List Riddle) (u : User) (language : String)
    (category : Option String) (attempts : List (Option GenCandidate × String))
    (tr : String → String) (freshId : String) (k1 k2 k3 : Nat) :
    Option (DeliverOk × List Riddle × User) :=
  deliver riddles u language category
    (generate_fresh_ai_riddle riddles (pyOrDefault category "general") attempts)
    tr freshId k1 k2 k3

/-! ## Answer checking (`check_answer`) -/

/-- The `/check` failure modes: unknown riddle id (404) and the
max-attempts block (400, message disclosing the stored answer). -/
inductive CheckError where
  | riddleNotFound
  | attemptsExhausted (answer : String)
deriving DecidableEq

/-- The `/check` response body (user stats are read off the updated user). -/
structure CheckResult where
  correct : Bool
  answer : Option String
  points_change : Int
  attempts_left : Int
  skip_to_next : Bool
  max_attempts_reached : Bool
deriving DecidableEq, Inhabited

/-- The difficulty → points table, with the dictionary default `10`
(`difficulty_points.get(riddle.get("difficulty", "medium"), 10)`; the
`difficulty` field is always present on stored riddles in this model). -/
def diffPoints (d : String) : Int :=
  if d == "easy" then 10
  else if d == "medium" then 15
  else if d == "hard" then 20
  else 10

/-- `check_answer` (the `/check` route).  `today` is the current UTC day
number.  On a block or 404 the handler raises before any update, so only the
`Except.ok` branch carries a new user state. -/
def check_answer (riddles : List Riddle) (u : User) (today : Nat)
    (riddle_id : String) (ans : String) :
    Except CheckError (CheckResult × User) :=
  match find_one riddles riddle_id with
  | none => .error .riddleNotFound
  | some r =>
    let current_attempts := getAttempts u riddle_id
    if current_attempts ≥ 2 then
      .error (.attemptsExhausted r.answer)
    else
      let user_answer := pyLower (pyStrip ans)
      let correct_answer := pyLower (pyStrip r.answer)
      let correct0 := user_answer == correct_answer
      let correct := correct0 ||
        (!correct0 && strContains user_answer correct_answer &&
          Nat.ble (pyWordCount user_answer) 5)
      let new_attempts := current_attempts + 1
      let base : User :=
        { u with
          solved := u.solved + 1
          current_riddle_attempts :=
            setAttempts u.current_riddle_attempts riddle_id new_attempts
          last_active := some today }
      if correct then
        let points_change : Int :=
          diffPoints r.difficulty + (if current_attempts == 0 then 5 else 0)
        let withStreak : User :=
          match u.last_active with
          | some last_date =>
            let days_diff : Int := (today : Int) - (last_date : Int)
            if days_diff == 1 then { base with streak := base.streak + 1 }
            else if days_diff > 1 then { base with streak := 1 }
            else base
          | none => { base with streak := 1 }
        let u' :=
          { withStreak with
            correct := withStreak.correct + 1
            points := withStreak.points + points_change }
        .ok ({ correct := true
               answer := if new_attempts ≥ 2 then some r.answer else none
               points_change := points_change
               attempts_left := 2 - (new_attempts : Int)
               skip_to_next := true
               max_attempts_reached := false }, u')
      else if new_attempts ≥ 2 then
        .ok ({ correct := false
               answer := some r.answer
               points_change := -5
               attempts_left := 2 - (new_attempts : Int)
               skip_to_next := true
               max_attempts_reached := true },
             { base with points := base.points - 5 })
      else
        .ok ({ correct := false
               answer := none
               points_change := 0
               attempts_left := 2 - (new_attempts : Int)
               skip_to_next := false
               max_attempts_reached := false }, base)

/-- A sequence of `/check` submissions by one user (no intervening delivery
or reset): failed calls raise and leave the user unchanged. -/
def runChecks (riddles : List Riddle) (today : Nat) :
    User → List (String × String) → User
  | u, [] => u
  | u, (rid, ans) :: rest =>
    match check_answer riddles u today rid ans with
    | .ok (_, u') => runChecks riddles today u' rest
    | .error _ => runChecks riddles today u rest

/-! ## History reset and daily challenge -/

/-- The `/reset-history` route: empty the seen-set and the attempt map. -/
def reset_history (u : User) : User :=
  { u with seen_riddles := [], current_riddle_attempts := [] }

/-- A document of the `daily_challenges` collection. -/
structure DailyChallenge where
  id : String
  date : String
  riddle : Riddle
  participants : List String
deriving DecidableEq, Inhabited

/-- The `/daily-challenge/answer` failure modes. -/
inductive DailyError where
  | noChallengeToday
  | alreadyCompleted
deriving DecidableEq

/-- The `/daily-challenge/answer` response body. -/
structure DailyResult where
  correct : Bool
  bonus_points : Int
  answer : Option String
deriving DecidableEq, Inhabited

/-- `answer_daily_challenge` (the `/daily-challenge/answer` route). `today`
is the current UTC date as an ISO string. -/
def answer_daily_challenge (challenges : List DailyChallenge) (u : User)
    (today : String) (ans : String) :
    Except DailyError (DailyResult × User × List DailyChallenge) :=
  match challenges.find? (fun ch => ch.date == today) with
  | none => .error .noChallengeToday
  | some ch =>
    if u.daily_challenges_completed.contains today then
      .error .alreadyCompleted
    else
      let user_answer := pyLower (pyStrip ans)
      let correct_answer := pyLower (pyStrip ch.riddle.answer)
      if user_answer == correct_answer then
        let u' :=
          { u with
            points := u.points + 50
            correct := u.correct + 1
            solved := u.solved + 1
            daily_challenges_completed :=
              addToSet u.daily_challenges_completed today }
        let challenges' := challenges.map (fun c =>
          if c.id == ch.id then
            { c with participants := addToSet c.participants u.username }
          else c)
        .ok ({ correct := true, bonus_points := 50, answer := none },
             u', challenges')
      else
        .ok ({ correct := false, bonus_points := 0,
               answer := some ch.riddle.answer },
             { u with solved := u.solved + 1 }, challenges)

/-! ## Example fixtures used by witnesses and counterexamples -/

/-- An easy English riddle with answer `book`. -/
def exR : Riddle :=
  { id := "r1", question := "i have pages", answer := "book",
    riddle_hash := "h1", category := "general", difficulty := "easy",
    language := "en", hints := [], shares := 0, likes := 0 }

/-- A medium English riddle with answer `shadow`. -/
def exRShadow : Riddle :=
  { id := "r2", question := "i follow you", answer := "shadow",
    riddle_hash := "h2", category := "general", difficulty := "medium",
    language := "en", hints := [], shares := 0, likes := 0 }

/-- A fresh user. -/
def exU0 : User :=
  { username := "alice", solved := 0, correct := 0, streak := 0, points := 0,
    seen_riddles := [], current_riddle_attempts := [],
    daily_challenges_completed := [], last_active := none }

/-! ## Helper lemmas -/

theorem lookup_setAttempts_self (l : List (String × Nat)) (rid : String)
    (n : Nat) : List.lookup rid (setAttempts l rid n) = some n := by
  induction l with
  | nil => simp [setAttempts, List.lookup]
  | cons p t ih =>
    obtain ⟨k, v⟩ := p
    by_cases hk : k = rid
    · subst hk
      simp [setAttempts, List.lookup]
    · simp only [setAttempts, beq_iff_eq, hk, if_false, List.lookup]
      have : (rid == k) = false := by
        simp [beq_iff_eq]
        exact fun h => hk h.symm
      simp [this, ih]

theorem lookup_setAttempts_ne (l : List (String × Nat)) (rid k : String)
    (n : Nat) (h : k ≠ rid) :
    List.lookup k (setAttempts l rid n) = List.lookup k l := by
  induction l with
  | nil =>
    have hb : (k == rid) = false := by simp [h]
    simp [setAttempts, List.lookup, hb]
  | cons p t ih =>
    obtain ⟨k', v⟩ := p
    by_cases hk : k' = rid
    · subst hk
      have : (k == k') = false := by simp [beq_iff_eq, h]
      simp [setAttempts, List.lookup, this]
    · simp only [setAttempts, beq_iff_eq, hk, if_false, List.lookup]
      by_cases hkk : k = k'
      · simp [hkk]
      · have : (k == k') = false := by simp [beq_iff_eq, hkk]
        simp [this, ih]

theorem getAttempts_set_self (u : User) (rid : String) (n : Nat) :
    getAttempts
      { u with current_riddle_attempts :=
          setAttempts u.current_riddle_attempts rid n } rid = n := by
  simp [getAttempts, lookup_setAttempts_self]

theorem getAttempts_set_ne (u : User) (rid k : String) (n : Nat)
    (h : k ≠ rid) :
    getAttempts
      { u with current_riddle_attempts :=
          setAttempts u.current_riddle_attempts rid n } k =
      getAttempts u k := by
  simp [getAttempts, lookup_setAttempts_ne _ _ _ _ h]

theorem choose_mem (l : List Riddle) (k : Nat) (h : l ≠ []) :
    choose l k ∈ l := by
  have hlen : k % l.length < l.length :=
    Nat.mod_lt _ (List.length_pos.mpr h)
  rw [choose, List.getD_eq_getElem?_getD, List.getElem?_eq_getElem hlen]
  exact List.getElem_mem hlen

theorem mem_addToSet (l : List String) (x y : String) (h : y ∈ l) :
    y ∈ addToSet l x := by
  unfold addToSet
  split
  · exact h
  · exact List.mem_append_left _ h

theorem check_ok_state (riddles : List Riddle) (u : User) (today : Nat)
    (rid ans : String) (res : CheckResult) (u' : User)
    (h : check_answer riddles u today rid ans = .ok (res, u')) :
    getAttempts u rid < 2 ∧
    u'.current_riddle_attempts =
      setAttempts u.current_riddle_attempts rid (getAttempts u rid + 1) ∧
    u'.seen_riddles = u.seen_riddles ∧
    u'.daily_challenges_completed = u.daily_challenges_completed := by
  unfold check_answer at h
  cases hf : find_one riddles rid with
  | none => rw [hf] at h; exact absurd h (by simp)
  | some r =>
    rw [hf] at h
    dsimp only at h
    cases hla : u.last_active <;> rw [hla] at h <;>
      (split at h
       · exact absurd h (by simp)
       · repeat' (split at h)
         all_goals
           (injection h with h'; injection h' with hres hu;
             subst u'; subst res;
             refine ⟨by omega, ?_, ?_, ?_⟩ <;> simp))

theorem check_blocked (riddles : List Riddle) (u : User) (today : Nat)
    (rid ans : String) (r : Riddle) (hf : find_one riddles rid = some r)
    (h2 : 2 ≤ getAttempts u rid) :
    check_answer riddles u today rid ans =
      .error (.attemptsExhausted r.answer) := by
  unfold check_answer
  rw [hf]
  simp [h2]

theorem check_ok_getAttempts (riddles : List Riddle) (u : User) (today : Nat)
    (rid ans : String) (res : CheckResult) (u' : User)
    (h : check_answer riddles u today rid ans = .ok (res, u'))
    (k : String) :
    getAttempts u' k =
      if k = rid then getAttempts u rid + 1 else getAttempts u k := by
  obtain ⟨-, hc, -, -⟩ := check_ok_state riddles u today rid ans res u' h
  by_cases hk : k = rid
  · subst hk
    simp [getAttempts, hc, lookup_setAttempts_self]
  · simp [getAttempts, hc, lookup_setAttempts_ne _ _ _ _ hk, hk]

theorem runChecks_getAttempts_le (riddles : List Riddle) (today : Nat)
    (subs : List (String × String)) (u : User)
    (h : ∀ rid, getAttempts u rid ≤ 2) :
    ∀ rid, getAttempts (runChecks riddles today u subs) rid ≤ 2 := by
  induction subs generalizing u with
  | nil => exact h
  | cons p rest ih =>
    obtain ⟨rid0, ans0⟩ := p
    unfold runChecks
    cases hc : check_answer riddles u today rid0 ans0 with
    | error e => exact ih u h
    | ok q =>
      obtain ⟨res0, u1⟩ := q
      refine ih u1 (fun rid => ?_)
      rw [check_ok_getAttempts riddles u today rid0 ans0 res0 u1 hc rid]
      split
      · have := (check_ok_state riddles u today rid0 ans0 res0 u1 hc).1
        omega
      · exact h rid

theorem runChecks_keep2 (riddles : List Riddle) (today : Nat)
    (subs : List (String × String)) (u : User) (rid : String)
    (h : getAttempts u rid = 2) :
    getAttempts (runChecks riddles today u subs) rid = 2 := by
  induction subs generalizing u with
  | nil => exact h
  | cons p rest ih =>
    obtain ⟨rid0, ans0⟩ := p
    unfold runChecks
    cases hc : check_answer riddles u today rid0 ans0 with
    | error e => exact ih u h
    | ok q =>
      obtain ⟨res0, u1⟩ := q
      refine ih u1 ?_
      rw [check_ok_getAttempts riddles u today rid0 ans0 res0 u1 hc rid]
      split
      · rename_i hk
        subst hk
        have := (check_ok_state riddles u today rid ans0 res0 u1 hc).1
        omega
      · exact h

/-- C2: under sequential submissions (no intervening delivery or reset) the
stored attempt counter for every (user, riddle) pair stays ≤ 2, and any
submission made while the counter is already 2 fails with the
AttemptsExhausted error disclosing the stored answer and leaves the user —
in particular the counter — unchanged. -/
theorem c2_attempt_counter_capped (riddles : List Riddle) (today : Nat)
    (u : User) (subs : List (String × String))
    (hinv : ∀ rid, getAttempts u rid ≤ 2) :
    (∀ rid, getAttempts (runChecks riddles today u subs) rid ≤ 2) ∧
    (∀ rid ans r, getAttempts u rid = 2 → find_one riddles rid = some r →
      check_answer riddles u today rid ans =
        .error (.attemptsExhausted r.answer) ∧
      runChecks riddles today u [(rid, ans)] = u) := by
  refine ⟨runChecks_getAttempts_le riddles today subs u hinv, ?_⟩
  intro rid ans r h2 hf
  have hb := check_blocked riddles u today rid ans r hf (by omega)
  exact ⟨hb, by simp [runChecks, hb]⟩

/-- A user whose counter for `r1` is already 2. -/
def exU2 : User := { exU0 with current_riddle_attempts := [("r1", 2)] }

theorem c2_attempt_counter_capped_witness :
    check_answer [exR] exU2 0 "r1" "pages" =
      .error (.attemptsExhausted exR.answer) ∧
    runChecks [exR] 0 exU2 [("r1", "pages")] = exU2 :=
  (c2_attempt_counter_capped [exR] 0 exU2 [("r1", "pages")]
    (fun rid => by
      by_cases h : rid = "r1"
      · simp [exU2, exU0, getAttempts, List.lookup, h]
      · have hb : (rid == "r1") = false := by simp [h]
        simp [exU2, exU0, getAttempts, List.lookup, hb])).2
    "r1" "pages" exR (by decide) (by decide)

theorem matchesQuery_not_seen (language : String) (category : Option String)
    (seen : List String) (r : Riddle)
    (h : matchesQuery language category seen r = true) : r.id ∉ seen := by
  unfold matchesQuery at h
  simp only [Bool.and_eq_true, Bool.not_eq_true'] at h
  simpa using h.1.2

/-- Discriminator for the `/check` outcome (true on the 200 path). -/
def isOkCheck : Except CheckError (CheckResult × User) → Bool
  | .ok _ => true
  | .error _ => false

/-- A user who exhausted both attempts on `r1` and has seen it. -/
def exU6 : User :=
  { exU0 with seen_riddles := ["r1"], current_riddle_attempts := [("r1", 2)] }

/-- The state `deliver` leaves after re-serving `r1` to `exU6` through the
freshness-exhaustion fallback. -/
def exU6After : User := markDelivered { exU6 with seen_riddles := [] } "r1"

/-- C6 counterexample: with corpus `[exR]`, user `exU6` has 2 recorded
attempts on `r1`, yet after one intervening fetch (which hits the exhaustion
fallback and re-delivers `r1`) the attempt counter is back to 0 and a
subsequent answer-check on `r1` succeeds instead of failing with
AttemptsExhausted — the channel is not permanently closed until reset. -/
theorem c6_counterexample :
    getAttempts exU6 "r1" = 2 ∧
    deliver [exR] exU6 "en" none none id "f1" 0 0 0 =
      some (deliverView exR, [exR], exU6After) ∧
    getAttempts exU6After "r1" = 0 ∧
    isOkCheck (check_answer [exR] exU6After 0 "r1" "book") = true := by
  decide

/-- C6 amended: once the attempt count for a (user, riddle) pair is 2, the
channel stays closed under any further sequence of answer-check submissions
(with no intervening delivery of that riddle and no reset): the counter stays
2 and every check on that pair fails with AttemptsExhausted disclosing the
answer.  (An intervening `deliver` of the same riddle — possible only through
the exhaustion fallback — re-initializes the counter to 0 and reopens the
channel, as does the explicit reset.) -/
theorem c6_channel_closed_amended (riddles : List Riddle) (today : Nat)
    (u : User) (rid : String) (r : Riddle) (subs : List (String × String))
    (ans : String) (h2 : getAttempts u rid = 2)
    (hf : find_one riddles rid = some r) :
    getAttempts (runChecks riddles today u subs) rid = 2 ∧
    check_answer riddles (runChecks riddles today u subs) today rid ans =
      .error (.attemptsExhausted r.answer) := by
  have hk := runChecks_keep2 riddles today subs u rid h2
  exact ⟨hk, check_blocked riddles _ today rid ans r hf (by omega)⟩

theorem c6_channel_closed_amended_witness :
    getAttempts (runChecks [exR] 0 exU6 [("r1", "book"), ("r1", "x")]) "r1" = 2 ∧
    check_answer [exR] (runChecks [exR] 0 exU6 [("r1", "book"), ("r1", "x")])
      0 "r1" "book" = .error (.attemptsExhausted exR.answer) :=
  c6_channel_closed_amended [exR] 0 exU6 "r1" exR [("r1", "book"), ("r1", "x")]
    "book" (by decide) (by decide)

theorem choose_filter_not_seen (riddles : List Riddle) (language : String)
    (category : Option String) (seen : List String) (k : Nat)
    (hne : riddles.filter (matchesQuery language category seen) ≠ []) :
    (choose (riddles.filter (matchesQuery language category seen)) k).id ∉
      seen := by
  have hmem := choose_mem _ k hne
  exact matchesQuery_not_seen _ _ _ _ (List.mem_filter.mp hmem).2

/-- C1: a riddle returned by `deliver` is never one the user has already
seen, except through the documented exhaustion fallback — no unseen candidate
matches the query and generation failed — in which case the seen-set is reset
(it ends up holding exactly the re-served riddle's id).  The two freshness
hypotheses say that newly generated `ObjectId`s do not collide with stored
seen ids. -/
theorem c1_deliver_unseen (riddles : List Riddle) (u : User)
    (language : String) (category : Option String) (gen : Option Riddle)
    (tr : String → String) (freshId : String) (k1 k2 k3 : Nat)
    (ok : DeliverOk) (rs : List Riddle) (u' : User)
    (hgen : ∀ r, gen = some r → r.id ∉ u.seen_riddles)
    (hfresh : freshId ∉ u.seen_riddles)
    (h : deliver riddles u language category gen tr freshId k1 k2 k3 =
      some (ok, rs, u')) :
    ok.id ∉ u.seen_riddles ∨
      (gen = none ∧
        riddles.filter (matchesQuery language category u.seen_riddles) = [] ∧
        u'.seen_riddles = [ok.id]) := by
  cases gen with
  | none =>
    unfold deliver at h
    dsimp only at h
    split at h
    · -- at least 3 unseen candidates: pick among them
      left
      injection h with h'
      injection h' with hok hrest
      subst ok
      rename_i h3
      have hne :
          riddles.filter (matchesQuery language category u.seen_riddles)
            ≠ [] := by
        intro hnil
        rw [hnil] at h3
        simp at h3
      simpa [deliverView] using
        choose_filter_not_seen riddles language category u.seen_riddles k1 hne
    · split at h
      · -- generation failed but an unseen candidate remains
        left
        injection h with h'
        injection h' with hok hrest
        subst ok
        rename_i hne'
        have hne :
            riddles.filter (matchesQuery language category u.seen_riddles)
              ≠ [] := by
          intro hnil
          rw [hnil] at hne'
          simp at hne'
        simpa [deliverView] using
          choose_filter_not_seen riddles language category u.seen_riddles k2
            hne
      · split at h
        · -- exhaustion fallback: seen-set reset, any riddle re-served
          right
          injection h with h'
          injection h' with hok hrest
          injection hrest with hrs hu
          subst ok
          subst u'
          rename_i hempty _
          refine ⟨rfl, ?_, ?_⟩
          · simp at hempty
            exact List.filter_eq_nil_iff.mpr (fun a ha => by
              simp [hempty a ha])
          · simp [markDelivered, deliverView, addToSet]
        · exact absurd h (by simp)
  | some en =>
    have hen : en.id ∉ u.seen_riddles := hgen en rfl
    unfold deliver at h
    dsimp only at h
    split at h
    · -- at least 3 unseen candidates: pick among them
      left
      injection h with h'
      injection h' with hok hrest
      subst ok
      rename_i h3
      have hne :
          riddles.filter (matchesQuery language category u.seen_riddles)
            ≠ [] := by
        intro hnil
        rw [hnil] at h3
        simp at h3
      simpa [deliverView] using
        choose_filter_not_seen riddles language category u.seen_riddles k1 hne
    · split at h
      · -- Hindi: a freshly translated copy with a fresh id is served
        left
        injection h with h'
        injection h' with hok hrest
        subst ok
        simpa [deliverView] using hfresh
      · -- English: the freshly generated riddle is served
        left
        injection h with h'
        injection h' with hok hrest
        subst ok
        simpa [deliverView] using hen

theorem c1_deliver_unseen_witness :
    (deliverView exR).id ∉ exU0.seen_riddles ∨
      ((none : Option Riddle) = none ∧
        [exR].filter (matchesQuery "en" none exU0.seen_riddles) = [] ∧
        (markDelivered exU0 "r1").seen_riddles = [(deliverView exR).id]) :=
  c1_deliver_unseen [exR] exU0 "en" none none id "f1" 0 0 0
    (deliverView exR) [exR] (markDelivered exU0 "r1")
    (fun r hr => by simp at hr) (by decide) (by decide)

/-- A user who has been shown `r1` and `r2`. -/
def exU5 : User := { exU0 with seen_riddles := ["r1", "r2"] }

/-- The state `deliver` leaves after the exhaustion fallback for `exU5`. -/
def exU5After : User := markDelivered { exU5 with seen_riddles := [] } "r1"

/-- C5 counterexample: with corpus `[exR]` and seen-set `["r1", "r2"]`, a
plain fetch (an internal engine operation, not the explicit history reset)
hits the exhaustion fallback, empties the seen-set and re-records only the
re-served riddle — the previously seen id `"r2"` is lost. -/
theorem c5_counterexample :
    "r2" ∈ exU5.seen_riddles ∧
    deliver [exR] exU5 "en" none none id "f1" 0 0 0 =
      some (deliverView exR, [exR], exU5After) ∧
    "r2" ∉ exU5After.seen_riddles := by
  decide

theorem deliver_seen_cases (riddles : List Riddle) (u : User)
    (language : String) (category : Option String) (gen : Option Riddle)
    (tr : String → String) (freshId : String) (k1 k2 k3 : Nat)
    (ok : DeliverOk) (rs : List Riddle) (u' : User)
    (h : deliver riddles u language category gen tr freshId k1 k2 k3 =
      some (ok, rs, u')) :
    (∃ rid, u' = markDelivered u rid) ∨
      (gen = none ∧
        riddles.filter (matchesQuery language category u.seen_riddles) = [] ∧
        u' = markDelivered { u with seen_riddles := [] } ok.id) := by
  cases gen with
  | none =>
    unfold deliver at h
    dsimp only at h
    split at h
    · left
      injection h with h'
      injection h' with hok hrest
      injection hrest with hrs hu
      exact ⟨_, hu.symm⟩
    · split at h
      · left
        injection h with h'
        injection h' with hok hrest
        injection hrest with hrs hu
        exact ⟨_, hu.symm⟩
      · split at h
        · right
          injection h with h'
          injection h' with hok hrest
          injection hrest with hrs hu
          subst ok
          rename_i hempty _
          refine ⟨rfl, ?_, hu.symm⟩
          simp at hempty
          exact List.filter_eq_nil_iff.mpr (fun a ha => by
            simp [hempty a ha])
        · exact absurd h (by simp)
  | some en =>
    unfold deliver at h
    dsimp only at h
    split at h
    · left
      injection h with h'
      injection h' with hok hrest
      injection hrest with hrs hu
      exact ⟨_, hu.symm⟩
    · split at h
      · left
        injection h with h'
        injection h' with hok hrest
        injection hrest with hrs hu
        exact ⟨_, hu.symm⟩
      · left
        injection h with h'
        injection h' with hok hrest
        injection hrest with hrs hu
        exact ⟨_, hu.symm⟩

theorem daily_ok_state (chs : List DailyChallenge) (u : User)
    (today ans : String) (res : DailyResult) (u' : User)
    (chs' : List DailyChallenge)
    (h : answer_daily_challenge chs u today ans = .ok (res, u', chs')) :
    u'.seen_riddles = u.seen_riddles ∧ u'.streak = u.streak ∧
    u'.current_riddle_attempts = u.current_riddle_attempts := by
  unfold answer_daily_challenge at h
  split at h
  · exact absurd h (by simp)
  · split at h
    · exact absurd h (by simp)
    · dsimp only at h
      split at h <;>
        (injection h with h'; injection h' with hres hrest;
          injection hrest with hu hchs; subst u'; simp)

/-- C5 amended: the seen-set grows monotonically under every modelled
operation except two resets: the explicit user-initiated history reset, and
the freshness-exhaustion fallback inside `deliver` (no unseen candidate and
failed generation), which empties the seen-set and leaves exactly the
re-served riddle's id in it.  Answer checking and daily-challenge answering
never change the seen-set. -/
theorem c5_seen_monotone_amended (riddles : List Riddle) (u : User)
    (language : String) (category : Option String) (gen : Option Riddle)
    (tr : String → String) (freshId : String) (k1 k2 k3 : Nat)
    (ok : DeliverOk) (rs : List Riddle) (u' : User)
    (hdel : deliver riddles u language category gen tr freshId k1 k2 k3 =
      some (ok, rs, u')) :
    ((∀ i ∈ u.seen_riddles, i ∈ u'.seen_riddles) ∨
      (gen = none ∧
        riddles.filter (matchesQuery language category u.seen_riddles) = [] ∧
        u'.seen_riddles = [ok.id])) ∧
    (∀ (riddles2 : List Riddle) (u2 : User) (today : Nat) (rid ans : String)
      (res : CheckResult) (u3 : User),
      check_answer riddles2 u2 today rid ans = .ok (res, u3) →
      u3.seen_riddles = u2.seen_riddles) ∧
    (∀ (chs : List DailyChallenge) (u2 : User) (today ans : String)
      (res : DailyResult) (u3 : User) (chs2 : List DailyChallenge),
      answer_daily_challenge chs u2 today ans = .ok (res, u3, chs2) →
      u3.seen_riddles = u2.seen_riddles) ∧
    (∀ u2 : User, (reset_history u2).seen_riddles = []) := by
  refine ⟨?_, ?_, ?_, fun u2 => rfl⟩
  · rcases deliver_seen_cases riddles u language category gen tr freshId
      k1 k2 k3 ok rs u' hdel with ⟨rid, hu⟩ | ⟨hg, hfil, hu⟩
    · left
      intro i hi
      subst hu
      exact mem_addToSet _ _ _ hi
    · right
      subst hu
      exact ⟨hg, hfil, by simp [markDelivered, addToSet]⟩
  · intro riddles2 u2 today rid ans res u3 hc
    exact (check_ok_state riddles2 u2 today rid ans res u3 hc).2.2.1
  · intro chs u2 today ans res u3 chs2 hd
    exact (daily_ok_state chs u2 today ans res u3 chs2 hd).1

theorem c5_seen_monotone_amended_witness :
    "r9" ∈ (markDelivered { exU0 with seen_riddles := ["r9"] } "r1").seen_riddles := by
  have h := (c5_seen_monotone_amended [exR]
    { exU0 with seen_riddles := ["r9"] } "en" none none id "f1" 0 0 0
    (deliverView exR) [exR]
    (markDelivered { exU0 with seen_riddles := ["r9"] } "r1")
    (by decide)).1
  rcases h with h | h
  · exact h "r9" (by decide)
  · exact absurd h.2.1 (by decide)

theorem matchesQuery_lang (language : String) (category : Option String)
    (seen : List String) (r : Riddle)
    (h : matchesQuery language category seen r = true) :
    (r.language == language) = true := by
  unfold matchesQuery at h
  simp only [Bool.and_eq_true] at h
  exact h.1.1

theorem deliver_none_iff (riddles : List Riddle) (u : User)
    (language : String) (category : Option String) (gen : Option Riddle)
    (tr : String → String) (freshId : String) (k1 k2 k3 : Nat) :
    deliver riddles u language category gen tr freshId k1 k2 k3 = none ↔
      (gen = none ∧
        riddles.filter (fun r => r.language == language) = []) := by
  cases gen with
  | some en =>
    constructor
    · intro h
      unfold deliver at h
      dsimp only at h
      split at h
      · exact absurd h (by simp)
      · split at h <;> exact absurd h (by simp)
    · intro hcon
      exact absurd hcon.1 (by simp)
  | none =>
    constructor
    · intro h
      unfold deliver at h
      dsimp only at h
      split at h
      · exact absurd h (by simp)
      · split at h
        · exact absurd h (by simp)
        · split at h
          · exact absurd h (by simp)
          · rename_i hall
            refine ⟨rfl, ?_⟩
            simp at hall
            exact List.filter_eq_nil_iff.mpr (fun a ha => by
              simp [hall a ha])
    · intro hcon
      obtain ⟨-, hlang⟩ := hcon
      have hq :
          riddles.filter (matchesQuery language category u.seen_riddles)
            = [] :=
        List.filter_eq_nil_iff.mpr (fun a ha hm =>
          List.filter_eq_nil_iff.mp hlang a ha
            (matchesQuery_lang language category u.seen_riddles a hm))
      unfold deliver
      dsimp only
      simp [hq, hlang]

/-- C7: the fetch-riddle route fails with ServiceUnavailable (503) exactly
when generation has failed after its bounded retries and the corpus holds no
riddle at all for the requested language; and generation-provider errors or
parse failures are absorbed as retries inside `generate_fresh_ai_riddle`
(one failed interaction is simply skipped), never surfaced by themselves. -/
theorem c7_service_unavailable (riddles : List Riddle) (u : User)
    (language : String) (category : Option String)
    (attempts : List (Option GenCandidate × String)) (tr : String → String)
    (freshId : String) (k1 k2 k3 : Nat) :
    (get_random_riddle riddles u language category attempts tr freshId
        k1 k2 k3 = none ↔
      (generate_fresh_ai_riddle riddles (pyOrDefault category "general")
          attempts = none ∧
        riddles.filter (fun r => r.language == language) = [])) ∧
    (∀ (cat i : String) (rest : List (Option GenCandidate × String)),
      generate_fresh_ai_riddle riddles cat ((none, i) :: rest) =
        generate_fresh_ai_riddle riddles cat rest) :=
  ⟨deliver_none_iff riddles u language category _ tr freshId k1 k2 k3,
   fun _ _ _ => rfl⟩

theorem c7_service_unavailable_witness :
    (get_random_riddle [] exU0 "en" none [(none, "g1")] id "f1" 0 0 0 =
        none ↔
      (generate_fresh_ai_riddle [] (pyOrDefault none "general")
          [(none, "g1")] = none ∧
        List.filter (fun r : Riddle => r.language == "en") [] = [])) ∧
    (∀ (cat i : String) (rest : List (Option GenCandidate × String)),
      generate_fresh_ai_riddle [] cat ((none, i) :: rest) =
        generate_fresh_ai_riddle [] cat rest) :=
  c7_service_unavailable [] exU0 "en" none [(none, "g1")] id "f1" 0 0 0

theorem check_ok_points (riddles : List Riddle) (u : User) (today : Nat)
    (rid ans : String) (r : Riddle) (res : CheckResult) (u' : User)
    (hf : find_one riddles rid = some r)
    (h : check_answer riddles u today rid ans = .ok (res, u')) :
    (res.correct = true →
      res.points_change =
        diffPoints r.difficulty +
          (if getAttempts u rid = 0 then 5 else 0) ∧
      u'.points = u.points + res.points_change) ∧
    (res.correct = false → getAttempts u rid = 0 →
      res.points_change = 0 ∧ u'.points = u.points ∧
      res.max_attempts_reached = false ∧ res.answer = none) ∧
    (res.correct = false → getAttempts u rid = 1 →
      res.points_change = -5 ∧ u'.points = u.points - 5 ∧
      res.answer = some r.answer ∧ res.max_attempts_reached = true) := by
  unfold check_answer at h
  rw [hf] at h
  dsimp only at h
  cases hla : u.last_active <;> rw [hla] at h <;>
    (split at h
     · exact absurd h (by simp)
     · repeat' (split at h)
       all_goals
         (injection h with h'; injection h' with hres hu; subst u';
           subst res;
           refine ⟨fun hc => ?_, fun hc h0 => ?_, fun hc h1 => ?_⟩ <;>
             simp_all))

theorem check_ok_correct (riddles : List Riddle) (u : User) (today : Nat)
    (rid ans : String) (r : Riddle) (res : CheckResult) (u' : User)
    (hf : find_one riddles rid = some r)
    (h : check_answer riddles u today rid ans = .ok (res, u')) :
    res.correct =
      (pyLower (pyStrip ans) == pyLower (pyStrip r.answer) ||
        (strContains (pyLower (pyStrip ans)) (pyLower (pyStrip r.answer)) &&
          Nat.ble (pyWordCount (pyLower (pyStrip ans))) 5)) := by
  unfold check_answer at h
  rw [hf] at h
  dsimp only at h
  cases hla : u.last_active <;> rw [hla] at h <;>
    (split at h
     · exact absurd h (by simp)
     · repeat' (split at h)
       all_goals
         (injection h with h'; injection h' with hres hu; subst u';
           subst res;
           cases hc0 :
             (pyLower (pyStrip ans) == pyLower (pyStrip r.answer)) <;>
           cases hcs :
             strContains (pyLower (pyStrip ans))
               (pyLower (pyStrip r.answer)) <;>
           cases hcb : Nat.ble (pyWordCount (pyLower (pyStrip ans))) 5 <;>
             simp_all))

theorem check_ok_exists (riddles : List Riddle) (u : User) (today : Nat)
    (rid ans : String) (r : Riddle)
    (hf : find_one riddles rid = some r)
    (h2 : getAttempts u rid < 2) :
    ∃ res u', check_answer riddles u today rid ans = .ok (res, u') := by
  unfold check_answer
  rw [hf]
  dsimp only
  rw [if_neg (by omega)]
  repeat' split
  all_goals exact ⟨_, _, rfl⟩

/-- Read the payload off a `/check` success (used to name concrete results
in witnesses). -/
def okD (e : Except CheckError (CheckResult × User)) : CheckResult × User :=
  match e with
  | .ok p => p
  | .error _ => default

/-- C3: for a resolved riddle with attempts remaining, the score delta of
`/check` is exactly: the difficulty points plus a +5 bonus when the prior
attempt count is 0 on a correct answer; 0 on a first incorrect answer (the
channel staying open and no answer disclosed); and -5 on an incorrect answer
that brings the attempt count to 2 (with the answer disclosed); where the
difficulty table is easy = 10, medium = 15, hard = 20. -/
theorem c3_scoring (riddles : List Riddle) (u : User) (today : Nat)
    (rid ans : String) (r : Riddle) (res : CheckResult) (u' : User)
    (hf : find_one riddles rid = some r)
    (h : check_answer riddles u today rid ans = .ok (res, u')) :
    ((res.correct = true →
      res.points_change =
        diffPoints r.difficulty +
          (if getAttempts u rid = 0 then 5 else 0) ∧
      u'.points = u.points + res.points_change) ∧
    (res.correct = false → getAttempts u rid = 0 →
      res.points_change = 0 ∧ u'.points = u.points ∧
      res.max_attempts_reached = false ∧ res.answer = none) ∧
    (res.correct = false → getAttempts u rid = 1 →
      res.points_change = -5 ∧ u'.points = u.points - 5 ∧
      res.answer = some r.answer ∧ res.max_attempts_reached = true)) ∧
    (diffPoints "easy" = 10 ∧ diffPoints "medium" = 15 ∧
      diffPoints "hard" = 20) :=
  ⟨check_ok_points riddles u today rid ans r res u' hf h, by decide⟩

theorem c3_scoring_witness :
    (okD (check_answer [exRShadow] exU0 0 "r2" "a shadow")).1.points_change =
      diffPoints exRShadow.difficulty +
        (if getAttempts exU0 "r2" = 0 then 5 else 0) ∧
    (okD (check_answer [exRShadow] exU0 0 "r2" "a shadow")).2.points =
      exU0.points +
        (okD (check_answer [exRShadow] exU0 0 "r2" "a shadow")).1.points_change :=
  (c3_scoring [exRShadow] exU0 0 "r2" "a shadow" exRShadow
    (okD (check_answer [exRShadow] exU0 0 "r2" "a shadow")).1
    (okD (check_answer [exRShadow] exU0 0 "r2" "a shadow")).2
    (by decide) rfl).1.1 (by decide)

/-- C4: `/check` marks a submission correct exactly when the
stripped-lowercased submission equals the stripped-lowercased stored answer,
or the normalized stored answer occurs as a substring of the normalized
submission and the submission has at most 5 whitespace-separated words.
(The witness instantiates the documented "a shadow" vs "shadow" scenario.) -/
theorem c4_accept_iff (riddles : List Riddle) (u : User) (today : Nat)
    (rid ans : String) (r : Riddle) (res : CheckResult) (u' : User)
    (hf : find_one riddles rid = some r)
    (h : check_answer riddles u today rid ans = .ok (res, u')) :
    res.correct =
      (pyLower (pyStrip ans) == pyLower (pyStrip r.answer) ||
        (strContains (pyLower (pyStrip ans)) (pyLower (pyStrip r.answer)) &&
          Nat.ble (pyWordCount (pyLower (pyStrip ans))) 5)) :=
  check_ok_correct riddles u today rid ans r res u' hf h

theorem c4_accept_iff_witness :
    (okD (check_answer [exRShadow] exU0 0 "r2" "a shadow")).1.correct =
      (pyLower (pyStrip "a shadow") == pyLower (pyStrip exRShadow.answer) ||
        (strContains (pyLower (pyStrip "a shadow"))
            (pyLower (pyStrip exRShadow.answer)) &&
          Nat.ble (pyWordCount (pyLower (pyStrip "a shadow"))) 5)) :=
  c4_accept_iff [exRShadow] exU0 0 "r2" "a shadow" exRShadow
    (okD (check_answer [exRShadow] exU0 0 "r2" "a shadow")).1
    (okD (check_answer [exRShadow] exU0 0 "r2" "a shadow")).2
    (by decide) rfl

/-- C9: a correct answer does not close the attempt channel.  After a correct
first submission (counter 0 → 1) the same correct answer may be submitted
again: it is accepted again and awards the difficulty points a second time,
this time without the +5 first-attempt bonus, so the riddle scores twice. -/
theorem c9_correct_twice (riddles : List Riddle) (u : User) (today : Nat)
    (rid ans : String) (r : Riddle) (res1 : CheckResult) (u1 : User)
    (hf : find_one riddles rid = some r)
    (h0 : getAttempts u rid = 0)
    (h1 : check_answer riddles u today rid ans = .ok (res1, u1))
    (hcorr : res1.correct = true) :
    getAttempts u1 rid = 1 ∧
    res1.points_change = diffPoints r.difficulty + 5 ∧
    u1.points = u.points + (diffPoints r.difficulty + 5) ∧
    ∃ res2 u2, check_answer riddles u1 today rid ans = .ok (res2, u2) ∧
      res2.correct = true ∧
      res2.points_change = diffPoints r.difficulty ∧
      u2.points = u1.points + diffPoints r.difficulty := by
  have hatt1 : getAttempts u1 rid = 1 := by
    rw [check_ok_getAttempts riddles u today rid ans res1 u1 h1 rid]
    simp [h0]
  have hp1 := (check_ok_points riddles u today rid ans r res1 u1 hf h1).1 hcorr
  rw [h0] at hp1
  simp only [if_pos rfl] at hp1
  obtain ⟨res2, u2, h2⟩ :=
    check_ok_exists riddles u1 today rid ans r hf (by omega)
  have hcorr2 : res2.correct = true := by
    rw [check_ok_correct riddles u1 today rid ans r res2 u2 hf h2,
      ← check_ok_correct riddles u today rid ans r res1 u1 hf h1]
    exact hcorr
  have hp2 := (check_ok_points riddles u1 today rid ans r res2 u2 hf h2).1
    hcorr2
  rw [hatt1] at hp2
  simp only [if_neg (by omega : ¬(1 : Nat) = 0)] at hp2
  refine ⟨hatt1, hp1.1, by rw [hp1.2, hp1.1]; simp, res2, u2, h2, hcorr2,
    ?_, ?_⟩
  · simpa using hp2.1
  · rw [hp2.2, hp2.1]
    simp

theorem c9_correct_twice_witness :
    getAttempts (okD (check_answer [exR] exU0 0 "r1" "book")).2 "r1" = 1 ∧
    (okD (check_answer [exR] exU0 0 "r1" "book")).1.points_change =
      diffPoints exR.difficulty + 5 ∧
    (okD (check_answer [exR] exU0 0 "r1" "book")).2.points =
      exU0.points + (diffPoints exR.difficulty + 5) ∧
    ∃ res2 u2,
      check_answer [exR] (okD (check_answer [exR] exU0 0 "r1" "book")).2 0
        "r1" "book" = .ok (res2, u2) ∧
      res2.correct = true ∧
      res2.points_change = diffPoints exR.difficulty ∧
      u2.points = (okD (check_answer [exR] exU0 0 "r1" "book")).2.points +
        diffPoints exR.difficulty :=
  c9_correct_twice [exR] exU0 0 "r1" "book" exR
    (okD (check_answer [exR] exU0 0 "r1" "book")).1
    (okD (check_answer [exR] exU0 0 "r1" "book")).2
    (by decide) (by decide) rfl (by decide)

/-- C10: an incorrect daily-challenge submission is neither limited nor
penalized: it increments only the solved counter, leaves points, streak and
the per-date completion record unchanged, and returns the correct answer in
the response body; since completion is only recorded on a correct answer, an
immediate resubmission of the disclosed answer on the same date is accepted
and awards the +50 bonus. -/
theorem daily_wrong_eq (challenges : List DailyChallenge) (u : User)
    (today ans : String) (ch : DailyChallenge)
    (hch : challenges.find? (fun c => c.date == today) = some ch)
    (hnotin : today ∉ u.daily_challenges_completed)
    (hwrong :
      (pyLower (pyStrip ans) == pyLower (pyStrip ch.riddle.answer)) =
        false) :
    answer_daily_challenge challenges u today ans =
      .ok ({ correct := false, bonus_points := 0,
             answer := some ch.riddle.answer },
           { u with solved := u.solved + 1 }, challenges) := by
  unfold answer_daily_challenge
  rw [hch]
  dsimp only
  rw [if_neg (by simpa using hnotin), if_neg (by simp [hwrong])]

theorem daily_correct_eq (challenges : List DailyChallenge) (u : User)
    (today ans : String) (ch : DailyChallenge)
    (hch : challenges.find? (fun c => c.date == today) = some ch)
    (hnotin : today ∉ u.daily_challenges_completed)
    (hcorr :
      (pyLower (pyStrip ans) == pyLower (pyStrip ch.riddle.answer)) =
        true) :
    answer_daily_challenge challenges u today ans =
      .ok ({ correct := true, bonus_points := 50, answer := none },
           { u with
             points := u.points + 50
             correct := u.correct + 1
             solved := u.solved + 1
             daily_challenges_completed :=
               addToSet u.daily_challenges_completed today },
           challenges.map (fun c =>
             if c.id == ch.id then
               { c with
                 participants := addToSet c.participants u.username }
             else c)) := by
  unfold answer_daily_challenge
  rw [hch]
  dsimp only
  rw [if_neg (by simpa using hnotin), if_pos (by simp [hcorr])]

/-- C10: an incorrect daily-challenge submission is neither limited nor
penalized: it increments only the solved counter, leaves points, streak and
the per-date completion record unchanged, and returns the correct answer in
the response body; since completion is only recorded on a correct answer, an
immediate resubmission of the disclosed answer on the same date is accepted
and awards the +50 bonus. -/
theorem c10_daily_wrong_then_resubmit (challenges : List DailyChallenge)
    (u : User) (today ans : String) (ch : DailyChallenge)
    (hch : challenges.find? (fun c => c.date == today) = some ch)
    (hnc : u.daily_challenges_completed.contains today = false)
    (hwrong :
      (pyLower (pyStrip ans) == pyLower (pyStrip ch.riddle.answer)) =
        false) :
    ∃ res u', answer_daily_challenge challenges u today ans =
        .ok (res, u', challenges) ∧
      res.correct = false ∧ res.answer = some ch.riddle.answer ∧
      res.bonus_points = 0 ∧
      u'.solved = u.solved + 1 ∧ u'.points = u.points ∧
      u'.streak = u.streak ∧
      u'.daily_challenges_completed = u.daily_challenges_completed ∧
      ∃ res2 u2 chs2,
        answer_daily_challenge challenges u' today ch.riddle.answer =
          .ok (res2, u2, chs2) ∧
        res2.correct = true ∧ res2.bonus_points = 50 ∧
        u2.points = u'.points + 50 := by
  have hnotin : today ∉ u.daily_challenges_completed := by simpa using hnc
  have hmain := daily_wrong_eq challenges u today ans ch hch hnotin hwrong
  have hmain2 := daily_correct_eq challenges { u with solved := u.solved + 1 }
    today ch.riddle.answer ch hch hnotin (by simp)
  exact ⟨_, _, hmain, rfl, rfl, rfl, rfl, rfl, rfl, rfl,
    _, _, _, hmain2, rfl, rfl, rfl⟩

/-- Today's daily challenge fixture. -/
def exCh : DailyChallenge :=
  { id := "c1", date := "2026-10-12", riddle := exR, participants := [] }

theorem c10_daily_wrong_then_resubmit_witness :
    ∃ res u', answer_daily_challenge [exCh] exU0 "2026-10-12" "pen" =
        .ok (res, u', [exCh]) ∧
      res.correct = false ∧ res.answer = some exCh.riddle.answer ∧
      res.bonus_points = 0 ∧
      u'.solved = exU0.solved + 1 ∧ u'.points = exU0.points ∧
      u'.streak = exU0.streak ∧
      u'.daily_challenges_completed = exU0.daily_challenges_completed ∧
      ∃ res2 u2 chs2,
        answer_daily_challenge [exCh] u' "2026-10-12" exCh.riddle.answer =
          .ok (res2, u2, chs2) ∧
        res2.correct = true ∧ res2.bonus_points = 50 ∧
        u2.points = u'.points + 50 :=
  c10_daily_wrong_then_resubmit [exCh] exU0 "2026-10-12" "pen" exCh
    (by decide) (by decide) (by decide)

/-- A parsed Groq candidate whose question contains uppercase letters. -/
def exCand : GenCandidate :=
  { question := "What Am I?", answer := "book", difficulty := some "easy" }

/-- C8 counterexample: the generation acceptance step persists the question
merely stripped, not lowercased — the accepted candidate with question
`"What Am I?"` is stored with its capitals intact, contradicting the claim
that both question and answer are stored trimmed and lowercased. -/
theorem c8_counterexample :
    (processCandidate [] "general" "gid1" exCand).map Riddle.question =
      some "What Am I?" ∧
    pyLower (pyStrip exCand.question) = "what am i?" ∧
    ("What Am I?" : String) ≠ "what am i?" := by
  decide

/-- C8 amended: a riddle persisted by the generation acceptance step stores
the answer lowercased-then-stripped, the question only stripped (its case
preserved), a content hash `create_riddle_hash question answer` — which is
the MD5 hex digest of the lowercased-and-stripped question concatenated with
the lowercased-and-stripped answer — a shares counter of 0, a likes counter
of 0, and an empty hints sequence. -/
theorem c8_generation_fields_amended (riddles : List Riddle)
    (category newId : String) (c : GenCandidate) (r : Riddle)
    (h : processCandidate riddles category newId c = some r) :
    r.answer = pyStrip (pyLower c.answer) ∧
    r.question = pyStrip c.question ∧
    r.riddle_hash =
      create_riddle_hash (pyStrip c.question) (pyStrip (pyLower c.answer)) ∧
    (∀ q a, create_riddle_hash q a =
      md5hex (pyStrip (pyLower q) ++ pyStrip (pyLower a))) ∧
    r.shares = 0 ∧ r.likes = 0 ∧ r.hints = [] ∧
    r.id = newId ∧ r.category = category ∧ r.language = "en" ∧
    r.difficulty = c.difficulty.getD "medium" := by
  unfold processCandidate at h
  dsimp only at h
  repeat' (split at h)
  all_goals first
    | exact Option.noConfusion h
    | (injection h with h'; subst r;
        refine ⟨rfl, rfl, rfl, fun q a => rfl, rfl, rfl, rfl, rfl, rfl, rfl,
          rfl⟩)

theorem c8_generation_fields_amended_witness :
    ((processCandidate [] "general" "gid1" exCand).getD default).answer =
      pyStrip (pyLower exCand.answer) ∧
    ((processCandidate [] "general" "gid1" exCand).getD default).question =
      pyStrip exCand.question ∧
    ((processCandidate [] "general" "gid1" exCand).getD default).riddle_hash =
      create_riddle_hash (pyStrip exCand.question)
        (pyStrip (pyLower exCand.answer)) ∧
    (∀ q a, create_riddle_hash q a =
      md5hex (pyStrip (pyLower q) ++ pyStrip (pyLower a))) ∧
    ((processCandidate [] "general" "gid1" exCand).getD default).shares = 0 ∧
    ((processCandidate [] "general" "gid1" exCand).getD default).likes = 0 ∧
    ((processCandidate [] "general" "gid1" exCand).getD default).hints = [] ∧
    ((processCandidate [] "general" "gid1" exCand).getD default).id =
      "gid1" ∧
    ((processCandidate [] "general" "gid1" exCand).getD default).category =
      "general" ∧
    ((processCandidate [] "general" "gid1" exCand).getD default).language =
      "en" ∧
    ((processCandidate [] "general" "gid1" exCand).getD default).difficulty =
      exCand.difficulty.getD "medium" :=
  c8_generation_fields_amended [] "general" "gid1" exCand
    ((processCandidate [] "general" "gid1" exCand).getD default) rfl
